import Mathlib

/-!
# Verification of the `pane_grid` widget subsystem (iced)

Shallow embedding of `src/native/src/widget/pane_grid.rs` — the gesture
controller (`on_event`, `click_pane`, `trigger_resize`), hit-testing
(`hovered_split`), cursor affordance (`mouse_interaction`) and the draw pass.

The widget's collaborators (the tree `Node`, the interaction state
`state::Internal`, the region solver, `Axis::split_line_bounds`, the geometry
primitives of `iced_core`, and the `State` mutators `resize`/`close`) live in
submodules that are not part of the provided sources; those definitions are
modelled from the specification and are marked `Modelled from the spec:` in
their doc comments.

`f32` coordinates and ratios are modelled as exact rationals (ℚ): the claims
are about the algebra of the computations, not about rounding of binary
floating point.
-/

namespace PaneGridSpec

/-- Modelled from the spec: 2-D point with `x`/`y` coordinates (`iced_core::Point`,
not under `src/`). -/
structure Point where
  x : ℚ
  y : ℚ
deriving DecidableEq, Repr

/-- Modelled from the spec: a width/height pair (`iced_core::Size`, not under `src/`). -/
structure Size where
  width : ℚ
  height : ℚ
deriving DecidableEq, Repr

/-- Modelled from the spec: an axis-aligned rectangle `{origin, size}`
(`iced_core::Rectangle`, not under `src/`). -/
structure Rectangle where
  x : ℚ
  y : ℚ
  width : ℚ
  height : ℚ
deriving DecidableEq, Repr

/-- Modelled from the spec: point containment for `iced_core::Rectangle`
(not under `src/`); closed on the near edges, open on the far edges. -/
def Rectangle.contains (r : Rectangle) (p : Point) : Bool :=
  decide (r.x ≤ p.x) && decide (p.x < r.x + r.width) &&
  decide (r.y ≤ p.y) && decide (p.y < r.y + r.height)

/-- `Axis`: `Horizontal` divides top/bottom, `Vertical` divides left/right
(spec §3; `axis.rs` is not under `src/`). -/
inductive Axis where
  | horizontal
  | vertical
deriving DecidableEq, Repr

/-- Modelled from the spec (§4.2, region solver; `axis.rs` not under `src/`):
split a rectangle along the axis at `ratio`, each side reduced by half of
`spacing` adjacent to the split line. -/
def Axis.splitRect : Axis → Rectangle → ℚ → ℚ → Rectangle × Rectangle
  | .horizontal, r, ratio, spacing =>
    ({ r with height := r.height * ratio - spacing / 2 },
     { r with y := r.y + r.height * ratio + spacing / 2,
              height := r.height * (1 - ratio) - spacing / 2 })
  | .vertical, r, ratio, spacing =>
    ({ r with width := r.width * ratio - spacing / 2 },
     { r with x := r.x + r.width * ratio + spacing / 2,
              width := r.width * (1 - ratio) - spacing / 2 })

/-- Modelled from the spec (§4.2 and the `on_resize` doc comment in
`pane_grid.rs`; `axis.rs` not under `src/`): the grab band of a split — a
rectangle of length `spacing`, properly centered on the split line
(`(spacing)/2.0` on either side), spanning the region perpendicular
to the axis. -/
def Axis.split_line_bounds : Axis → Rectangle → ℚ → ℚ → Rectangle
  | .horizontal, r, ratio, spacing =>
    { x := r.x, y := r.y + r.height * ratio - spacing / 2,
      width := r.width, height := spacing }
  | .vertical, r, ratio, spacing =>
    { x := r.x + r.width * ratio - spacing / 2, y := r.y,
      width := spacing, height := r.height }

/-- The layout tree (spec §3; `node.rs` is not under `src/`): a strict binary
tree of `Split` internal nodes (id, axis, ratio, two children) and `Pane`
leaves. Invariant maintained by the owner: every id appears exactly once. -/
inductive Node where
  | split (id : Nat) (axis : Axis) (ratio : ℚ) (first second : Node)
  | pane (id : Nat)
deriving DecidableEq, Repr

/-- Modelled from the spec (§4.2; `node.rs` not under `src/`): recursive
subdivision computing the rectangle of every pane leaf, in
first-child-before-second-child traversal order. -/
def Node.paneRegionsIn : Node → ℚ → Rectangle → List (Nat × Rectangle)
  | .pane p, _, r => [(p, r)]
  | .split _ ax ρ a b, spacing, r =>
    let rs := ax.splitRect r ρ spacing
    a.paneRegionsIn spacing rs.1 ++ b.paneRegionsIn spacing rs.2

/-- Modelled from the spec (§4.2; `node.rs` not under `src/`): for every split
node, its `(axis, occupied rectangle, ratio)`, in first-child-before-second-child
(pre-order) traversal. -/
def Node.splitRegionsIn : Node → ℚ → Rectangle → List (Nat × (Axis × Rectangle × ℚ))
  | .pane _, _, _ => []
  | .split id ax ρ a b, spacing, r =>
    let rs := ax.splitRect r ρ spacing
    (id, (ax, r, ρ)) :: (a.splitRegionsIn spacing rs.1 ++ b.splitRegionsIn spacing rs.2)

/-- Modelled from the spec (§4.2): `pane_regions` over the whole widget size,
starting from the origin rectangle. -/
def pane_regions (n : Node) (spacing : ℚ) (size : Size) : List (Nat × Rectangle) :=
  n.paneRegionsIn spacing ⟨0, 0, size.width, size.height⟩

/-- Modelled from the spec (§4.2): `split_regions` over the whole widget size. -/
def split_regions (n : Node) (spacing : ℚ) (size : Size) :
    List (Nat × (Axis × Rectangle × ℚ)) :=
  n.splitRegionsIn spacing ⟨0, 0, size.width, size.height⟩

/-- Lookup of a split id in the computed split regions (the `splits.get(&split)`
of the source; ids are unique, so first match is the match). -/
def lookupSplit (l : List (Nat × (Axis × Rectangle × ℚ))) (s : Nat) :
    Option (Axis × Rectangle × ℚ) :=
  (l.find? (fun e => e.1 = s)).map (·.2)

/-- The transient interaction state (spec §3; `state.rs` is not under `src/`):
`Idle`, `Dragging {pane, origin}` (a pane is picked), or
`Resizing {split, axis}` (a split is picked). -/
inductive Action where
  | idle
  | dragging (pane : Nat) (origin : Point)
  | resizing (split : Nat) (axis : Axis)
deriving DecidableEq, Repr

/-- The widget's borrowed internal state (`state::Internal`, not under `src/`,
modelled from the spec §3): the layout tree plus the current interaction. -/
structure Internal where
  layout : Node
  action : Action
deriving DecidableEq, Repr

/-- Modelled from the spec: `Internal::picked_pane` — the picked pane and its
origin offset while a pane is being dragged. -/
def Internal.picked_pane (s : Internal) : Option (Nat × Point) :=
  match s.action with
  | .dragging pane origin => some (pane, origin)
  | _ => none

/-- Modelled from the spec: `Internal::picked_split` — the picked split and its
axis while a split is being dragged. -/
def Internal.picked_split (s : Internal) : Option (Nat × Axis) :=
  match s.action with
  | .resizing split axis => some (split, axis)
  | _ => none

/-- Modelled from the spec: `Internal::pick_pane`. -/
def Internal.pick_pane (s : Internal) (pane : Nat) (origin : Point) : Internal :=
  { s with action := .dragging pane origin }

/-- Modelled from the spec: `Internal::pick_split`. -/
def Internal.pick_split (s : Internal) (split : Nat) (axis : Axis) : Internal :=
  { s with action := .resizing split axis }

/-- Modelled from the spec: `Internal::idle` — reset the interaction. -/
def Internal.idle (s : Internal) : Internal :=
  { s with action := .idle }

/-- Event status of the toolkit's event protocol (`event::Status`, not under
`src/`): `Captured` or `Ignored`. -/
inductive Status where
  | ignored
  | captured
deriving DecidableEq, Repr

/-- Modelled from the spec: `event::Status::merge` — `Captured` absorbs. -/
def Status.merge : Status → Status → Status
  | .ignored, b => b
  | .captured, _ => .captured

/-- Mouse cursor affordances (`mouse::Interaction`, not under `src/`), with the
priority order used by the iterator maximum; `Idle` is the default. -/
inductive Interaction where
  | idleInteraction
  | pointer
  | grab
  | text
  | crosshair
  | working
  | grabbing
  | resizingHorizontally
  | resizingVertically
deriving DecidableEq, Repr

/-- Priority rank of an affordance (position in the enum's derived order). -/
def Interaction.rank : Interaction → Nat
  | .idleInteraction => 0
  | .pointer => 1
  | .grab => 2
  | .text => 3
  | .crosshair => 4
  | .working => 5
  | .grabbing => 6
  | .resizingHorizontally => 7
  | .resizingVertically => 8

/-- Binary maximum by priority (`Ord::max`). -/
def Interaction.maxI (a b : Interaction) : Interaction :=
  if a.rank ≤ b.rank then b else a

/-- `Iterator::max` over a list of affordances: `none` on the empty list. -/
def interactionMax : List Interaction → Option Interaction
  | [] => none
  | i :: is => some (is.foldl Interaction.maxI i)

/-- The domain events the pane grid publishes upward (spec §6): the payloads of
`on_click`, `on_drag` (`DragEvent`) and `on_resize` (`ResizeEvent`). The
handlers are pure functions from these payloads into the application's message
type, so the controller is modelled as emitting the payloads themselves. -/
inductive DomainEvent where
  | paneClicked (pane : Nat)
  | dragPicked (pane : Nat)
  | dragDropped (pane : Nat) (target : Nat)
  | dragCanceled (pane : Nat)
  | resized (split : Nat) (ratio : ℚ)
deriving DecidableEq, Repr

/-- Input events relevant to the controller's `match` in `on_event`: a primary
button (or finger) press, a release (button released / finger lifted / finger
lost), a pointer move, or anything else. The cursor position accompanies the
event as a separate argument, as in the source. -/
inductive InputEvent where
  | press
  | release
  | move
  | other
deriving DecidableEq, Repr

/-- A pane's content, seen from the controller (external collaborator, spec §1):
whether a press at a point may pick the pane (`can_be_picked_at`), the status
its own `on_event` returns, and the affordance its `mouse_interaction`
reports. -/
structure Content where
  can_be_picked_at : Rectangle → Point → Bool
  eventStatus : Status
  interaction : Interaction

/-- The computed layout handed to the widget (external layout contract, spec
§6): the widget's bounds and the bounds of each pane's child layout, zipped
positionally with `elements`. -/
structure WLayout where
  bounds : Rectangle
  children : List Rectangle

/-- The `PaneGrid` widget for one event pass (`pane_grid.rs`): the borrowed
internal state, the per-pane elements, the spacing, and the optional
`on_click` / `on_drag` / `on_resize` configurations. The handlers' message
mappings are elided (the controller emits `DomainEvent`s directly);
`on_resize` keeps its `leeway` payload. -/
structure PaneGrid where
  state : Internal
  elements : List (Nat × Content)
  spacing : Nat
  on_click : Bool
  on_drag : Bool
  on_resize : Option Nat

/-- `hovered_split` (pane_grid.rs:713-730): over the computed split regions,
widen each split line to a band of the given width via `split_line_bounds`,
keep the bands containing the cursor, and take the first (`.next()`). -/
def hovered_split (splits : List (Nat × (Axis × Rectangle × ℚ))) (spacing : ℚ)
    (cursor_position : Point) : Option (Nat × Axis × Rectangle) :=
  (splits.filterMap (fun e =>
    let bounds := e.2.1.split_line_bounds e.2.2.1 e.2.2.2 spacing
    if bounds.contains cursor_position then some (e.1, e.2.1, bounds)
    else none)).head?

/-- The `clicked_region` iterator of `click_pane` (pane_grid.rs:210-215):
elements zipped with the layout children, filtered to those whose bounds
contain the cursor, first taken (`.next()`). The release path of `on_event`
builds the identical iterator under the name `dropped_region`. -/
def clicked_region (w : PaneGrid) (layout : WLayout) (cursor_position : Point) :
    Option ((Nat × Content) × Rectangle) :=
  ((w.elements.zip layout.children).filter
    (fun el => el.2.contains cursor_position)).head?

/-- `PaneGrid::click_pane` (pane_grid.rs:204-233): filter the elements zipped
with the layout children to those whose bounds contain the cursor; on the
first hit, publish `on_click` if configured, and if `on_drag` is configured
and the content can be picked there, pick the pane with
`origin = cursor − pane position` and publish `Picked`. Returns the new
internal state and the published domain events, in publication order. -/
def click_pane (w : PaneGrid) (layout : WLayout) (cursor_position : Point) :
    Internal × List DomainEvent :=
  match clicked_region w layout cursor_position with
  | some ((pane, content), lay) =>
    let clicks := if w.on_click then [DomainEvent.paneClicked pane] else []
    if w.on_drag then
      if content.can_be_picked_at lay cursor_position then
        let origin := Point.mk (cursor_position.x - lay.x) (cursor_position.y - lay.y)
        (w.state.pick_pane pane origin, clicks ++ [DomainEvent.dragPicked pane])
      else (w.state, clicks)
    else (w.state, clicks)
  | none => (w.state, [])

/-- `PaneGrid::trigger_resize` (pane_grid.rs:235-274): when `on_resize` is
configured and a split is picked, look its region up in the freshly computed
split regions; on success emit one `ResizeEvent` with
`ratio = ((cursor − bounds origin − region origin) / extent).max(0.1).min(0.9)`
along the split's axis and return `Captured`; otherwise `Ignored`.
The internal state is not touched. -/
def trigger_resize (w : PaneGrid) (layout : WLayout) (cursor_position : Point) :
    List DomainEvent × Status :=
  match w.on_resize with
  | some _ =>
    match w.state.picked_split with
    | some (split, _) =>
      let bounds := layout.bounds
      let splits := split_regions w.state.layout (w.spacing : ℚ)
        ⟨bounds.width, bounds.height⟩
      match lookupSplit splits split with
      | some (axis, rectangle, _) =>
        let ratio :=
          match axis with
          | .horizontal =>
            min (max ((cursor_position.y - bounds.y - rectangle.y) / rectangle.height)
              (1/10)) (9/10)
          | .vertical =>
            min (max ((cursor_position.x - bounds.x - rectangle.x) / rectangle.width)
              (1/10)) (9/10)
        ([DomainEvent.resized split ratio], .captured)
      | none => ([], .ignored)
    | none => ([], .ignored)
  | none => ([], .ignored)

/-- `Widget::on_event` for `PaneGrid` (pane_grid.rs:358-468). On press inside
the bounds: status `Captured`; with `on_resize` configured, hit-test the split
bands (width `spacing + leeway`) at the cursor relative to the bounds and pick
the split on a hit, else fall through to `click_pane`. On release: with a
picked pane, publish the drag outcome when `on_drag` is configured
(`Dropped` if the first containing region is a different pane, `Canceled`
otherwise) and go idle with status `Captured`; with a picked split, go idle
with status `Captured`. On move: `trigger_resize`. The controller status is
then folded (`Status::merge`) with each content's own status. Returns the new
internal state, the published domain events, and the final status. -/
def on_event (w : PaneGrid) (event : InputEvent) (layout : WLayout)
    (cursor_position : Point) : Internal × List DomainEvent × Status :=
  let step : Internal × List DomainEvent × Status :=
    match event with
    | .press =>
      let bounds := layout.bounds
      if bounds.contains cursor_position then
        match w.on_resize with
        | some leeway =>
          let relative_cursor := Point.mk (cursor_position.x - bounds.x)
            (cursor_position.y - bounds.y)
          let splits := split_regions w.state.layout (w.spacing : ℚ)
            ⟨bounds.width, bounds.height⟩
          let clicked_split := hovered_split splits
            (((w.spacing + leeway : Nat) : ℚ)) relative_cursor
          match clicked_split with
          | some (split, axis, _) => (w.state.pick_split split axis, [], .captured)
          | none =>
            let r := click_pane w layout cursor_position
            (r.1, r.2, .captured)
        | none =>
          let r := click_pane w layout cursor_position
          (r.1, r.2, .captured)
      else (w.state, [], .ignored)
    | .release =>
      match w.state.picked_pane with
      | some (pane, _) =>
        let events :=
          if w.on_drag then
            let dropped_region := (w.elements.zip layout.children).filter
              (fun el => el.2.contains cursor_position)
            match dropped_region.head? with
            | some ((target, _), _) =>
              if pane ≠ target then [DomainEvent.dragDropped pane target]
              else [DomainEvent.dragCanceled pane]
            | none => [DomainEvent.dragCanceled pane]
          else []
        (w.state.idle, events, .captured)
      | none =>
        if w.state.picked_split.isSome then (w.state.idle, [], .captured)
        else (w.state, [], .ignored)
    | .move =>
      let r := trigger_resize w layout cursor_position
      (w.state, r.1, r.2)
    | .other => (w.state, [], .ignored)
  let final_status :=
    (w.elements.map (fun e => e.2.eventStatus)).foldl Status.merge step.2.2
  (step.1, step.2.1, final_status)

/-- `Widget::mouse_interaction` for `PaneGrid` (pane_grid.rs:470-524): `Grab`
while a pane is picked; else the axis of the picked split, or — when
`on_resize` is configured — of the hovered split band, turned into the
perpendicular resize affordance; else the maximum of the contents'
affordances (`Idle` when there are none). -/
def mouse_interaction (w : PaneGrid) (layout : WLayout) (cursor_position : Point) :
    Interaction :=
  if w.state.picked_pane.isSome then .grab
  else
    let resize_axis : Option Axis :=
      match w.state.picked_split with
      | some (_, axis) => some axis
      | none =>
        match w.on_resize with
        | some leeway =>
          let bounds := layout.bounds
          let splits := split_regions w.state.layout (w.spacing : ℚ)
            ⟨bounds.width, bounds.height⟩
          let relative_cursor := Point.mk (cursor_position.x - bounds.x)
            (cursor_position.y - bounds.y)
          (hovered_split splits (((w.spacing + leeway : Nat) : ℚ)) relative_cursor).map
            (fun r => r.2.1)
        | none => none
    match resize_axis with
    | some .horizontal => .resizingVertically
    | some .vertical => .resizingHorizontally
    | none =>
      (interactionMax (w.elements.map (fun e => e.2.interaction))).getD .idleInteraction

/-- One invocation of a pane content's `draw` during the widget's draw pass:
which pane, the cursor position handed to it, and whether it was drawn inside
the translated, isolated layer of the picked pane. -/
structure DrawCall where
  pane : Nat
  cursor : Point
  floating : Bool
deriving DecidableEq, Repr

/-- The per-pane content invocations of `Widget::draw` (pane_grid.rs:584-627):
when a pane is picked every content receives the cursor `(-1, -1)`, otherwise
the real cursor; the picked pane alone is drawn translated in its own layer.
(The split-highlight quad painted afterwards involves no pane content and is
not modelled.) -/
def draw (w : PaneGrid) (layout : WLayout) (cursor_position : Point) :
    List DrawCall :=
  let picked_pane := w.state.picked_pane
  let pane_cursor_position :=
    if picked_pane.isSome then Point.mk (-1) (-1) else cursor_position
  (w.elements.zip layout.children).map (fun el =>
    match picked_pane with
    | some (dragging, _) =>
      if el.1.1 = dragging then ⟨el.1.1, pane_cursor_position, true⟩
      else ⟨el.1.1, pane_cursor_position, false⟩
    | none => ⟨el.1.1, pane_cursor_position, false⟩)

/-- Modelled from the spec: `Node::resize` (`node.rs`, not under `src/`).
Walks the tree for the split id and stores the given ratio there, verbatim;
§4.1's "soft clamp on the input side" and the design note §9 state that the
public mutator itself performs no clamping — the hard [0.1, 0.9] clamp lives
only on the pointer-driven path (`trigger_resize`). Returns `none` when the
split id is absent (searching the first child before the second). -/
def Node.resize : Node → Nat → ℚ → Option Node
  | .split id axis ratio a b, s, r =>
    if id = s then some (.split id axis r a b)
    else
      match a.resize s r with
      | some a2 => some (.split id axis ratio a2 b)
      | none =>
        match b.resize s r with
        | some b2 => some (.split id axis ratio a b2)
        | none => none
  | .pane _, _, _ => none

/-- The id of a leaf, `none` on a split (`Node::pane`). -/
def Node.pane? : Node → Option Nat
  | .pane p => some p
  | .split _ _ _ _ _ => none

/-- The first (top/left-most) pane of a subtree (`Node::first_pane`). -/
def Node.first_pane : Node → Nat
  | .split _ _ _ a _ => a.first_pane
  | .pane p => p

/-- Modelled from the spec: `Node::remove` (`node.rs`, not under `src/`).
Removes the leaf `p` together with its parent split, promoting the sibling
subtree one level up, and reports the sibling subtree's first pane; `none`
when `p` is not a removable leaf — in particular on a single-leaf root, since
a leaf has no parent split. -/
def Node.remove : Node → Nat → Option (Node × Nat)
  | .split id ax ρ a b, p =>
    if a.pane? = some p then some (b, b.first_pane)
    else if b.pane? = some p then some (a, a.first_pane)
    else
      match a.remove p with
      | some (a2, s) => some (.split id ax ρ a2 b, s)
      | none =>
        match b.remove p with
        | some (b2, s) => some (.split id ax ρ a b2, s)
        | none => none
  | .pane _, _ => none

/-- Number of pane leaves of a subtree. -/
def Node.paneCount : Node → Nat
  | .pane _ => 1
  | .split _ _ _ a b => a.paneCount + b.paneCount

/-- The ratio stored at the first occurrence (pre-order) of a split id. -/
def Node.ratioAt : Node → Nat → Option ℚ
  | .split id _ ratio a b, s =>
    if id = s then some ratio
    else
      match a.ratioAt s with
      | some r => some r
      | none => b.ratioAt s
  | .pane _, _ => none

/-- The persisted layout state owned by the application (spec §3;
`state.rs` is not under `src/`): the per-pane application state and the tree.
(The monotonic id counter only feeds id generation in `split`, which no claim
exercises, and is omitted.) -/
structure GridState (α : Type) where
  panes : List (Nat × α)
  layout : Node
deriving DecidableEq

/-- Modelled from the spec: `State::resize` (`state.rs`, not under `src/`) —
delegate to `Node::resize` on the tree and ignore the not-found case. -/
def GridState.resize (s : GridState α) (split : Nat) (ratio : ℚ) : GridState α :=
  match s.layout.resize split ratio with
  | some l => { s with layout := l }
  | none => s

/-- Remove a key from the pane-state association list (`panes.remove(pane)`). -/
def removePaneEntry (l : List (Nat × α)) (p : Nat) : Option (α × List (Nat × α)) :=
  match l.find? (fun e => e.1 = p) with
  | some e => some (e.2, l.filter (fun e2 => e2.1 != p))
  | none => none

/-- Modelled from the spec: `State::close` (`state.rs`, not under `src/`) —
remove the pane from the tree (rejected when it is the sole remaining pane),
then take its application state out of the pane map; on success returns the
closed pane's state, the promoted sibling's first pane, and the new layout
state. -/
def GridState.close (s : GridState α) (p : Nat) :
    Option ((α × Nat) × GridState α) :=
  match s.layout.remove p with
  | some (layout2, sibling) =>
    match removePaneEntry s.panes p with
    | some (st, panes2) => some ((st, sibling), ⟨panes2, layout2⟩)
    | none => none
  | none => none

/-- The perpendicular resize affordance for a split axis (the final match of
`mouse_interaction`, pane_grid.rs:504-509). -/
def axisResizeInteraction : Axis → Interaction
  | .horizontal => .resizingVertically
  | .vertical => .resizingHorizontally

/-!
## Concrete fixtures

A two-pane tree split vertically at ratio 1/2 (panes 1 left, 2 right, split
id 0), laid out at 100×100 with spacing 4 — the worked scenario of spec §8 —
and widgets in the various interaction states.
-/

/-- The two-pane demo tree of spec §8. -/
def demoTree : Node := .split 0 .vertical (1/2) (.pane 1) (.pane 2)

/-- A content that can always be picked, reporting `Ignored` / `Idle`. -/
def contentPickable : Content :=
  ⟨fun _ _ => true, .ignored, .idleInteraction⟩

/-- Elements for the two demo panes. -/
def demoElements : List (Nat × Content) := [(1, contentPickable), (2, contentPickable)]

/-- The 100×100 layout of the demo tree at spacing 4: pane 1 at (0,0,48,100),
pane 2 at (52,0,48,100). -/
def demoLayout : WLayout := ⟨⟨0, 0, 100, 100⟩, [⟨0, 0, 48, 100⟩, ⟨52, 0, 48, 100⟩]⟩

/-- Demo widget with split 0 picked and resizing configured (leeway 6). -/
def widgetResizing : PaneGrid :=
  ⟨⟨demoTree, .resizing 0 .vertical⟩, demoElements, 4, false, false, some 6⟩

/-- Demo widget at rest with every handler configured. -/
def widgetIdle : PaneGrid :=
  ⟨⟨demoTree, .idle⟩, demoElements, 4, true, true, some 6⟩

/-- Demo widget with pane 1 picked and a drag handler configured. -/
def widgetDragging : PaneGrid :=
  ⟨⟨demoTree, .dragging 1 ⟨1, 1⟩⟩, demoElements, 4, false, true, none⟩

/-- Demo widget with pane 1 picked but no drag handler configured. -/
def widgetDraggingNoHandler : PaneGrid :=
  ⟨⟨demoTree, .dragging 1 ⟨1, 1⟩⟩, demoElements, 4, false, false, none⟩

/-- Demo widget with split 7 picked while no resize handler is configured
(the handler was dropped between frames; the picked state persists). -/
def widgetResizingNoHandler : PaneGrid :=
  ⟨⟨demoTree, .resizing 7 .horizontal⟩, demoElements, 4, false, false, none⟩

/-- The demo tree as a persisted layout state over trivial pane states. -/
def demoGrid : GridState Unit := ⟨[(1, ()), (2, ())], demoTree⟩

/-- A single-leaf persisted layout state. -/
def soloGrid : GridState Unit := ⟨[(1, ())], .pane 1⟩

/-!
## Shared lemmas
-/

/-- The head of a filtered list is the first element satisfying the filter. -/
theorem head?_filter_eq_find? {α : Type} (p : α → Bool) (l : List α) :
    (l.filter p).head? = l.find? p := by
  induction l with
  | nil => rfl
  | cons a l ih => cases h : p a <;> simp [List.filter_cons, List.find?_cons, h, ih]

/-- The head of a `filterMap` is the image of the first element on which the
function succeeds. -/
theorem head?_filterMap_eq_find? {α β : Type} (f : α → Option β) (l : List α) :
    (l.filterMap f).head? = (l.find? (fun a => (f a).isSome)).bind f := by
  induction l with
  | nil => rfl
  | cons a l ih => cases h : f a <;> simp [List.filterMap_cons, List.find?_cons, h, ih]

/-- `find?` over an append picks a matching element even when everything before
it fails the predicate. -/
theorem find?_append_first {α : Type} (p : α → Bool) (l1 l2 : List α) (a : α)
    (h1 : ∀ x ∈ l1, p x = false) (h2 : p a = true) :
    (l1 ++ a :: l2).find? p = some a := by
  induction l1 with
  | nil => simp [List.find?_cons, h2]
  | cons x l ih =>
    have hx := h1 x (by simp)
    simp only [List.cons_append, List.find?_cons, hx]
    exact ih (fun y hy => h1 y (by simp [hy]))

/-- Folding `Status::merge` from `Captured` stays `Captured`, whatever the
contents report. -/
theorem foldl_merge_captured (l : List Status) :
    l.foldl Status.merge .captured = .captured := by
  induction l with
  | nil => rfl
  | cons a l ih => simpa [Status.merge] using ih

/-- Every tree has at least one pane: the tree type is a strict binary tree
whose leaves are panes, so no operation can yield an empty tree. -/
theorem paneCount_pos (n : Node) : 0 < n.paneCount := by
  induction n with
  | pane p => simp [Node.paneCount]
  | split id ax ρ a b iha ihb => simp only [Node.paneCount]; omega

/-- A failed `Node::resize` means the split id is absent. -/
theorem resize_none_ratioAt (n : Node) (s : Nat) (r : ℚ)
    (h : n.resize s r = none) : n.ratioAt s = none := by
  induction n with
  | pane p => simp [Node.ratioAt]
  | split id ax ρ a b iha ihb =>
    simp only [Node.resize] at h
    by_cases hid : id = s
    · simp [hid] at h
    · simp only [hid, if_false] at h
      cases ha : a.resize s r with
      | some a2 => rw [ha] at h; exact absurd h (by simp)
      | none =>
        rw [ha] at h
        cases hb : b.resize s r with
        | some b2 => rw [hb] at h; exact absurd h (by simp)
        | none => simp [Node.ratioAt, hid, iha ha, ihb hb]

/-- A successful `Node::resize` stores the given ratio, verbatim, at the
split. -/
theorem ratioAt_resize (n : Node) (s : Nat) (r : ℚ) (n2 : Node)
    (h : n.resize s r = some n2) : n2.ratioAt s = some r := by
  induction n generalizing n2 with
  | pane p => simp [Node.resize] at h
  | split id ax ρ a b iha ihb =>
    simp only [Node.resize] at h
    by_cases hid : id = s
    · simp only [hid, if_true] at h
      obtain rfl : Node.split s ax r a b = n2 := by simpa using h
      simp [Node.ratioAt]
    · simp only [hid, if_false] at h
      cases ha : a.resize s r with
      | some a2 =>
        rw [ha] at h
        obtain rfl : Node.split id ax ρ a2 b = n2 := by simpa using h
        simp [Node.ratioAt, hid, iha a2 ha]
      | none =>
        rw [ha] at h
        cases hb : b.resize s r with
        | some b2 =>
          rw [hb] at h
          obtain rfl : Node.split id ax ρ a b2 = n2 := by simpa using h
          simp [Node.ratioAt, hid, resize_none_ratioAt a s r ha, ihb b2 hb]
        | none => rw [hb] at h; exact absurd h (by simp)

/-- `hovered_split` selects exactly the first split, in traversal order, whose
grab band contains the cursor. -/
theorem hovered_split_eq_find? (splits : List (Nat × (Axis × Rectangle × ℚ)))
    (sp : ℚ) (p : Point) :
    hovered_split splits sp p =
      (splits.find? (fun e =>
        (e.2.1.split_line_bounds e.2.2.1 e.2.2.2 sp).contains p)).map
        (fun e => (e.1, e.2.1, e.2.1.split_line_bounds e.2.2.1 e.2.2.2 sp)) := by
  induction splits with
  | nil => rfl
  | cons a l ih =>
    simp only [hovered_split, List.filterMap_cons, List.find?_cons] at ih ⊢
    cases h : (a.2.1.split_line_bounds a.2.2.1 a.2.2.2 sp).contains p
    · simpa [h] using ih
    · simp [h]

/-- The `clicked_region` / `dropped_region` selection is exactly the first
element, in traversal order, whose bounds contain the cursor. -/
theorem clicked_region_eq_find? (w : PaneGrid) (layout : WLayout) (cp : Point) :
    clicked_region w layout cp =
      (w.elements.zip layout.children).find? (fun el => el.2.contains cp) := by
  simp only [clicked_region]
  rw [head?_filter_eq_find?]

/-!
## Claims
-/

/-- C1: on a pointer move while a split is picked and a resize handler is
configured, if the picked split has an entry in the freshly computed split
regions then `trigger_resize` emits exactly one resize event whose ratio is
the cursor position along the split's axis minus the region's origin along
that axis (both taken relative to the widget bounds), divided by the region's
extent along that axis, clamped to [0.1, 0.9]; the move path of `on_event`
leaves the internal state untouched; and `trigger_resize` reports `Captured`
exactly when it emits an event. -/
theorem c1_trigger_resize_emits_clamped_ratio (w : PaneGrid) (layout : WLayout)
    (p : Point) (leeway split : Nat) (axis0 axis : Axis) (rect : Rectangle) (ρ : ℚ)
    (hr : w.on_resize = some leeway)
    (hp : w.state.picked_split = some (split, axis0))
    (hs : lookupSplit (split_regions w.state.layout (w.spacing : ℚ)
        ⟨layout.bounds.width, layout.bounds.height⟩) split = some (axis, rect, ρ)) :
    trigger_resize w layout p =
      ([DomainEvent.resized split (match axis with
          | .horizontal =>
            min (max ((p.y - layout.bounds.y - rect.y) / rect.height) (1/10)) (9/10)
          | .vertical =>
            min (max ((p.x - layout.bounds.x - rect.x) / rect.width) (1/10)) (9/10))],
        .captured) ∧
    (on_event w .move layout p).1 = w.state ∧
    ∀ q : Point, ((trigger_resize w layout q).2 = .captured ↔
      (trigger_resize w layout q).1 ≠ []) := by
  refine ⟨?_, ?_, ?_⟩
  · cases axis <;> simp only [trigger_resize, hr, hp, hs]
  · rfl
  · intro q
    cases hO : w.on_resize with
    | none => simp [trigger_resize, hO]
    | some lw =>
      cases hP : w.state.picked_split with
      | none => simp [trigger_resize, hO, hP]
      | some sa =>
        obtain ⟨s, ax0⟩ := sa
        cases hL : lookupSplit (split_regions w.state.layout (w.spacing : ℚ)
            ⟨layout.bounds.width, layout.bounds.height⟩) s with
        | none => simp [trigger_resize, hO, hP, hL]
        | some arr =>
          obtain ⟨ax, rect2, ρ2⟩ := arr
          simp [trigger_resize, hO, hP, hL]

/-- C1 witness: the demo widget with split 0 picked, cursor at (49, 50):
one resize event with ratio 49/100, `Captured`. -/
theorem c1_witness :
    trigger_resize widgetResizing demoLayout ⟨49, 50⟩ =
      ([DomainEvent.resized 0 (49/100)], .captured) ∧
    ((trigger_resize widgetResizing demoLayout ⟨49, 50⟩).2 = .captured ↔
      (trigger_resize widgetResizing demoLayout ⟨49, 50⟩).1 ≠ []) := by
  have h := c1_trigger_resize_emits_clamped_ratio widgetResizing demoLayout
    ⟨49, 50⟩ 6 0 .vertical .vertical ⟨0, 0, 100, 100⟩ (1/2)
    (by rfl) (by rfl)
    (by norm_num [lookupSplit, split_regions, Node.splitRegionsIn, Axis.splitRect,
      widgetResizing, demoTree, demoLayout, List.find?])
  refine ⟨?_, h.2.2 ⟨49, 50⟩⟩
  rw [h.1]
  norm_num [demoLayout]

/-- C2: on a primary press inside the widget bounds with a resize handler
configured, the controller first hit-tests the split grab bands of width
`spacing + leeway` at the cursor relative to the bounds: on a band hit it
transitions to the split-picked state and publishes nothing; only when no
band matches — or when no resize handler is configured — does it fall
through to `click_pane`. -/
theorem c2_press_prefers_split_bands (w : PaneGrid) (layout : WLayout) (p : Point)
    (hin : layout.bounds.contains p = true) :
    (∀ leeway split axis bounds, w.on_resize = some leeway →
      hovered_split (split_regions w.state.layout (w.spacing : ℚ)
          ⟨layout.bounds.width, layout.bounds.height⟩)
          (((w.spacing + leeway : Nat) : ℚ))
          ⟨p.x - layout.bounds.x, p.y - layout.bounds.y⟩ = some (split, axis, bounds) →
      (on_event w .press layout p).1 = w.state.pick_split split axis ∧
      (on_event w .press layout p).2.1 = []) ∧
    (∀ leeway, w.on_resize = some leeway →
      hovered_split (split_regions w.state.layout (w.spacing : ℚ)
          ⟨layout.bounds.width, layout.bounds.height⟩)
          (((w.spacing + leeway : Nat) : ℚ))
          ⟨p.x - layout.bounds.x, p.y - layout.bounds.y⟩ = none →
      (on_event w .press layout p).1 = (click_pane w layout p).1 ∧
      (on_event w .press layout p).2.1 = (click_pane w layout p).2) ∧
    (w.on_resize = none →
      (on_event w .press layout p).1 = (click_pane w layout p).1 ∧
      (on_event w .press layout p).2.1 = (click_pane w layout p).2) := by
  refine ⟨?_, ?_, ?_⟩
  · intro leeway split axis bounds hr hh
    constructor <;> simp only [on_event, hin, if_true, hr, hh]
  · intro leeway hr hh
    constructor <;> simp only [on_event, hin, if_true, hr, hh]
  · intro hr
    constructor <;> simp only [on_event, hin, if_true, hr]

/-- C2 witness: the press of spec §8 — demo widget, cursor (49, 50), band
x ∈ [45, 55] — picks split 0 and publishes nothing. -/
theorem c2_witness :
    (on_event widgetIdle .press demoLayout ⟨49, 50⟩).1 =
      widgetIdle.state.pick_split 0 .vertical ∧
    (on_event widgetIdle .press demoLayout ⟨49, 50⟩).2.1 = [] := by
  exact (c2_press_prefers_split_bands widgetIdle demoLayout ⟨49, 50⟩
    (by norm_num [Rectangle.contains, demoLayout])).1 6 0 .vertical ⟨45, 0, 10, 100⟩
    (by rfl)
    (by norm_num [hovered_split, split_regions, Node.splitRegionsIn, Axis.splitRect,
      Axis.split_line_bounds, Rectangle.contains, widgetIdle, demoTree, demoLayout,
      List.filterMap])

/-- C3: on a primary release while a pane is picked and a drag handler is
configured, `on_event` publishes exactly one drag event — `Dropped` when the
first region containing the release point belongs to a different pane,
`Canceled` otherwise (no hit, or the hit is the picked pane itself) — and
returns to idle; a release while a split is picked publishes nothing and also
returns to idle. -/
theorem c3_release_drag_outcome (w : PaneGrid) (layout : WLayout) (p : Point) :
    (∀ pane origin, w.state.picked_pane = some (pane, origin) → w.on_drag = true →
      (on_event w .release layout p).1 = w.state.idle ∧
      (on_event w .release layout p).2.1 =
        (match (w.elements.zip layout.children).find? (fun el => el.2.contains p) with
         | some ((target, _), _) =>
           if pane ≠ target then [DomainEvent.dragDropped pane target]
           else [DomainEvent.dragCanceled pane]
         | none => [DomainEvent.dragCanceled pane])) ∧
    (∀ split axis, w.state.picked_split = some (split, axis) →
      (on_event w .release layout p).1 = w.state.idle ∧
      (on_event w .release layout p).2.1 = []) := by
  constructor
  · intro pane origin hp hd
    refine ⟨by simp only [on_event, hp, hd], ?_⟩
    simp only [on_event, hp, hd, if_true]
    rw [← head?_filter_eq_find?]
  · intro split axis hsp
    have hpp : w.state.picked_pane = none := by
      cases hact : w.state.action <;>
        simp [Internal.picked_pane, Internal.picked_split, hact] at hsp ⊢
    constructor <;> simp [on_event, hpp, hsp]

/-- C3 witness: pane 1 picked, released at (75, 50) over pane 2: one
`Dropped{1, 2}` event and the state returns to idle. -/
theorem c3_witness :
    (on_event widgetDragging .release demoLayout ⟨75, 50⟩).1 =
      widgetDragging.state.idle ∧
    (on_event widgetDragging .release demoLayout ⟨75, 50⟩).2.1 =
      [DomainEvent.dragDropped 1 2] := by
  have h := (c3_release_drag_outcome widgetDragging demoLayout ⟨75, 50⟩).1
    1 ⟨1, 1⟩ (by rfl) (by rfl)
  refine ⟨h.1, ?_⟩
  rw [h.2]
  norm_num [Rectangle.contains, demoElements, demoLayout, List.find?]

/-- C4: when the press's pane hit-test finds a first region containing the
cursor, `click_pane` publishes the pane-clicked event exactly when a click
handler is configured; and exactly when a drag handler is configured and the
press lies in the content's pick region, it additionally transitions to the
pane-picked state with origin offset `cursor − pane top-left` and publishes
`Picked`; otherwise it leaves the state unchanged. -/
theorem c4_click_pane_spec (w : PaneGrid) (layout : WLayout) (p : Point)
    (pane : Nat) (content : Content) (lay : Rectangle)
    (hfirst : (w.elements.zip layout.children).find? (fun el => el.2.contains p) =
      some ((pane, content), lay)) :
    (click_pane w layout p).2 =
      (if w.on_click then [DomainEvent.paneClicked pane] else []) ++
      (if w.on_drag && content.can_be_picked_at lay p then
        [DomainEvent.dragPicked pane] else []) ∧
    ((w.on_drag && content.can_be_picked_at lay p) = true →
      (click_pane w layout p).1 =
        w.state.pick_pane pane ⟨p.x - lay.x, p.y - lay.y⟩) ∧
    ((w.on_drag && content.can_be_picked_at lay p) = false →
      (click_pane w layout p).1 = w.state) := by
  have hcr : clicked_region w layout p = some ((pane, content), lay) := by
    rw [clicked_region, head?_filter_eq_find?]; exact hfirst
  cases hd : w.on_drag <;> cases hc : w.on_click <;>
    cases hpick : content.can_be_picked_at lay p <;>
      simp [click_pane, hcr, hd, hc, hpick]

/-- C4 witness: press at (10, 10) over pane 1 with click and drag handlers
configured and a pickable content: `PaneClicked 1` then `Picked 1` are
published and the state becomes pane-picked with origin (10, 10). -/
theorem c4_witness :
    (click_pane widgetIdle demoLayout ⟨10, 10⟩).2 =
      [DomainEvent.paneClicked 1] ++ [DomainEvent.dragPicked 1] ∧
    (click_pane widgetIdle demoLayout ⟨10, 10⟩).1 =
      widgetIdle.state.pick_pane 1 ⟨10 - 0, 10 - 0⟩ := by
  have h := c4_click_pane_spec widgetIdle demoLayout ⟨10, 10⟩
    1 contentPickable ⟨0, 0, 48, 100⟩
    (by norm_num [Rectangle.contains, demoElements, demoLayout, contentPickable,
      List.find?])
  exact ⟨by rw [h.1]; rfl, h.2.1 (by rfl)⟩

/-- C8 counterexample: with split 7 picked but NO resize handler configured
(and no pane picked), the code still reports `ResizingVertically`, while the
claim's conditions for `Grab` and for the resize affordance both fail and its
final clause predicts the contents' maximum, which is `Idle` here. -/
theorem c8_counterexample :
    widgetResizingNoHandler.state.picked_pane = none ∧
    widgetResizingNoHandler.on_resize = none ∧
    (interactionMax (widgetResizingNoHandler.elements.map
      (fun e => e.2.interaction))).getD .idleInteraction = .idleInteraction ∧
    mouse_interaction widgetResizingNoHandler demoLayout ⟨50, 50⟩ =
      .resizingVertically :=
  ⟨rfl, rfl, rfl, rfl⟩

/-- C8 (amended): the affordance is `Grab` whenever a pane is picked;
otherwise, while a split is picked the resize affordance perpendicular to its
axis is reported regardless of whether a resize handler is configured;
otherwise, when a resize handler is configured and a split grab band (widened
by leeway) contains the cursor, the resize affordance for that split's axis;
otherwise the maximum of the contents' affordances. -/
theorem c8_amended_mouse_interaction (w : PaneGrid) (layout : WLayout) (p : Point) :
    (w.state.picked_pane.isSome = true → mouse_interaction w layout p = .grab) ∧
    (w.state.picked_pane = none →
      ∀ split axis, w.state.picked_split = some (split, axis) →
      mouse_interaction w layout p = axisResizeInteraction axis) ∧
    (w.state.picked_pane = none → w.state.picked_split = none →
      ∀ leeway split axis bounds, w.on_resize = some leeway →
      hovered_split (split_regions w.state.layout (w.spacing : ℚ)
          ⟨layout.bounds.width, layout.bounds.height⟩)
        (((w.spacing + leeway : Nat) : ℚ))
        ⟨p.x - layout.bounds.x, p.y - layout.bounds.y⟩ = some (split, axis, bounds) →
      mouse_interaction w layout p = axisResizeInteraction axis) ∧
    (w.state.picked_pane = none → w.state.picked_split = none →
      (∀ leeway, w.on_resize = some leeway →
        hovered_split (split_regions w.state.layout (w.spacing : ℚ)
            ⟨layout.bounds.width, layout.bounds.height⟩)
          (((w.spacing + leeway : Nat) : ℚ))
          ⟨p.x - layout.bounds.x, p.y - layout.bounds.y⟩ = none) →
      mouse_interaction w layout p =
        (interactionMax (w.elements.map (fun e => e.2.interaction))).getD
          .idleInteraction) := by
  refine ⟨?_, ?_, ?_, ?_⟩
  · intro hp
    simp [mouse_interaction, hp]
  · intro hp split axis hs
    cases axis <;> simp [mouse_interaction, hp, hs, axisResizeInteraction]
  · intro hp hs leeway split axis bounds hr hh
    push_cast at hh
    cases axis <;> simp [mouse_interaction, hp, hs, hr, hh, axisResizeInteraction]
  · intro hp hs hnone
    cases hr : w.on_resize with
    | none => simp [mouse_interaction, hp, hs, hr]
    | some leeway =>
      have h3 := hnone leeway hr
      push_cast at h3
      simp [mouse_interaction, hp, hs, hr, h3]

/-- C8 witness: pane picked yields `Grab`; split 0 (a vertical split) picked
yields `ResizingHorizontally`. -/
theorem c8_witness :
    mouse_interaction widgetDragging demoLayout ⟨50, 50⟩ = .grab ∧
    mouse_interaction widgetResizing demoLayout ⟨50, 50⟩ =
      axisResizeInteraction .vertical :=
  ⟨(c8_amended_mouse_interaction widgetDragging demoLayout ⟨50, 50⟩).1 rfl,
    (c8_amended_mouse_interaction widgetResizing demoLayout ⟨50, 50⟩).2.1 rfl
      0 .vertical rfl⟩

/-- C9: while some pane is picked, every pane content — the picked one
included — is drawn with the cursor replaced by (-1, -1), so no content can
show hover feedback during the drag; with no pane picked, every content
receives the real cursor. -/
theorem c9_draw_cursor_masked (w : PaneGrid) (layout : WLayout) (p : Point) :
    (w.state.picked_pane.isSome = true →
      ∀ c ∈ draw w layout p, c.cursor = Point.mk (-1) (-1)) ∧
    (w.state.picked_pane = none →
      ∀ c ∈ draw w layout p, c.cursor = p) := by
  constructor
  · intro hp c hc
    cases hpp : w.state.picked_pane with
    | none => rw [hpp] at hp; simp at hp
    | some pr =>
      obtain ⟨dragging, origin⟩ := pr
      simp only [draw, hpp, Option.isSome_some, if_true] at hc
      obtain ⟨el, hel, rfl⟩ := List.mem_map.mp hc
      by_cases h : el.1.1 = dragging <;> simp [h]
  · intro hpp c hc
    simp only [draw, hpp, Option.isSome_none, Bool.false_eq_true, if_false] at hc
    obtain ⟨el, hel, rfl⟩ := List.mem_map.mp hc
    rfl

/-- C9 witness: dragging pane 1, the picked pane's own draw call carries
cursor (-1, -1); idle, the first pane's draw call carries the real cursor. -/
theorem c9_witness :
    (DrawCall.mk 1 (Point.mk (-1) (-1)) true).cursor = Point.mk (-1) (-1) ∧
    (DrawCall.mk 1 (Point.mk 50 50) false).cursor = Point.mk 50 50 :=
  ⟨(c9_draw_cursor_masked widgetDragging demoLayout ⟨50, 50⟩).1 rfl
      (DrawCall.mk 1 (Point.mk (-1) (-1)) true) (List.mem_cons_self _ _),
    (c9_draw_cursor_masked widgetIdle demoLayout ⟨50, 50⟩).2 rfl
      (DrawCall.mk 1 (Point.mk 50 50) false) (List.mem_cons_self _ _)⟩

/-- C10: on a primary release while a pane is picked but no drag handler is
configured, `on_event` publishes nothing at all, still resets the state to
idle, and still reports `Captured` (folding the controller status with the
contents' statuses cannot lose `Captured`). -/
theorem c10_release_without_drag_handler (w : PaneGrid) (layout : WLayout)
    (p : Point) (pane : Nat) (origin : Point)
    (hp : w.state.picked_pane = some (pane, origin))
    (hd : w.on_drag = false) :
    on_event w .release layout p = (w.state.idle, [], .captured) := by
  simp [on_event, hp, hd, foldl_merge_captured]

/-- C5 counterexample: on the two-pane demo layout, `resize(0, 0.0)` and
`resize(0, 0.1)` do NOT produce identical layouts — the mutator stores the
ratio verbatim (0 respectively 1/10), and the computed pane regions differ
(a zero-width first pane versus a 10-wide one). -/
theorem c5_counterexample :
    demoGrid.resize 0 0 ≠ demoGrid.resize 0 (1/10) ∧
    (demoGrid.resize 0 0).layout.ratioAt 0 = some 0 ∧
    (demoGrid.resize 0 (1/10)).layout.ratioAt 0 = some (1/10) ∧
    pane_regions (demoGrid.resize 0 0).layout 0 ⟨100, 100⟩ ≠
      pane_regions (demoGrid.resize 0 (1/10)).layout 0 ⟨100, 100⟩ := by
  refine ⟨?_, ?_, ?_, ?_⟩ <;>
    norm_num [GridState.resize, Node.resize, demoGrid, demoTree, Node.ratioAt,
      pane_regions, Node.paneRegionsIn, Axis.splitRect]

/-- C5 (amended): `resize(split, r)` stores `r` verbatim at the split — no
clamping happens inside the mutator, which is why out-of-range ratios are not
mapped to their clamped counterparts; only the pointer-driven path
(`trigger_resize`) clamps to [0.1, 0.9]. -/
theorem c5_amended_resize_stores_input {α : Type} (st : GridState α) (s : Nat)
    (r : ℚ) (n2 : Node) (h : st.layout.resize s r = some n2) :
    (st.resize s r).layout = n2 ∧ n2.ratioAt s = some r := by
  refine ⟨?_, ratioAt_resize _ _ _ _ h⟩
  simp [GridState.resize, h]

/-- C5 witness: resizing split 0 of the demo layout to ratio 0 stores
exactly 0. -/
theorem c5_witness :
    (demoGrid.resize 0 0).layout = Node.split 0 .vertical 0 (.pane 1) (.pane 2) ∧
    (Node.split 0 .vertical 0 (.pane 1) (.pane 2)).ratioAt 0 = some 0 :=
  c5_amended_resize_stores_input demoGrid 0 0
    (Node.split 0 .vertical 0 (.pane 1) (.pane 2)) (by rfl)

/-- C6: `close` on the sole pane of a single-leaf layout fails (returns
`none`, leaving the layout untouched), whatever pane id is asked; and a
successful `close` always leaves at least one pane — the tree can never
become empty. -/
theorem c6_close_sole_pane {α : Type} (s : GridState α) (p q : Nat)
    (h : s.layout = .pane q) :
    s.close p = none ∧
    ∀ (t : GridState α) (x : Nat) res, t.close x = some res →
      0 < res.2.layout.paneCount := by
  refine ⟨?_, fun t x res hres => paneCount_pos _⟩
  simp [GridState.close, h, Node.remove]

/-- C6 witness: closing pane 1 of the single-leaf layout fails; closing
pane 1 of the two-pane layout leaves one pane. -/
theorem c6_witness :
    soloGrid.close 1 = none ∧
    0 < (GridState.mk [(2, ())] (Node.pane 2) : GridState Unit).layout.paneCount := by
  have h := c6_close_sole_pane soloGrid 1 1 (by rfl)
  exact ⟨h.1, h.2 demoGrid 1 (((), 2), ⟨[(2, ())], .pane 2⟩) (by rfl)⟩

/-- C7: both hit-tests select exactly the first region in
first-child-before-second-child traversal order containing the cursor:
`hovered_split` and `clicked_region` each equal a `find?` over their region
lists, and whenever everything before a matching entry misses, that entry is
selected — so the selection is a deterministic function of the region list
(hence of tree, geometry) and the cursor point. -/
theorem c7_first_match_selection :
    (∀ (splits : List (Nat × (Axis × Rectangle × ℚ))) (sp : ℚ) (p : Point),
      hovered_split splits sp p =
        (splits.find? (fun e =>
          (e.2.1.split_line_bounds e.2.2.1 e.2.2.2 sp).contains p)).map
          (fun e => (e.1, e.2.1, e.2.1.split_line_bounds e.2.2.1 e.2.2.2 sp))) ∧
    (∀ (w : PaneGrid) (layout : WLayout) (cp : Point),
      clicked_region w layout cp =
        (w.elements.zip layout.children).find? (fun el => el.2.contains cp)) ∧
    (∀ (l1 l2 : List (Nat × (Axis × Rectangle × ℚ)))
      (e : Nat × (Axis × Rectangle × ℚ)) (sp : ℚ) (p : Point),
      (∀ x ∈ l1, (x.2.1.split_line_bounds x.2.2.1 x.2.2.2 sp).contains p = false) →
      (e.2.1.split_line_bounds e.2.2.1 e.2.2.2 sp).contains p = true →
      hovered_split (l1 ++ e :: l2) sp p =
        some (e.1, e.2.1, e.2.1.split_line_bounds e.2.2.1 e.2.2.2 sp)) ∧
    (∀ (w : PaneGrid) (layout : WLayout) (cp : Point)
      (l1 l2 : List ((Nat × Content) × Rectangle)) (el : (Nat × Content) × Rectangle),
      w.elements.zip layout.children = l1 ++ el :: l2 →
      (∀ x ∈ l1, x.2.contains cp = false) →
      el.2.contains cp = true →
      clicked_region w layout cp = some el) := by
  refine ⟨hovered_split_eq_find?, clicked_region_eq_find?, ?_, ?_⟩
  · intro l1 l2 e sp p h1 h2
    rw [hovered_split_eq_find?, find?_append_first _ _ _ _ h1 h2]
    rfl
  · intro w layout cp l1 l2 el hzip h1 h2
    rw [clicked_region_eq_find?, hzip, find?_append_first _ _ _ _ h1 h2]

/-- C7 witness: with a non-matching split region listed first, the later
matching split 0 is selected with its band. -/
theorem c7_witness :
    hovered_split
      ([(5, (.vertical, ⟨0, 0, 10, 10⟩, 1/2))] ++
        (0, (.vertical, ⟨0, 0, 100, 100⟩, 1/2)) :: []) 10 ⟨49, 50⟩ =
      some (0, .vertical, Axis.split_line_bounds .vertical ⟨0, 0, 100, 100⟩ (1/2) 10) :=
  c7_first_match_selection.2.2.1
    [(5, (.vertical, ⟨0, 0, 10, 10⟩, 1/2))] []
    (0, (.vertical, ⟨0, 0, 100, 100⟩, 1/2)) 10 ⟨49, 50⟩
    (by
      intro x hx
      simp only [List.mem_singleton] at hx
      subst hx
      norm_num [Axis.split_line_bounds, Rectangle.contains])
    (by norm_num [Axis.split_line_bounds, Rectangle.contains])

/-- C10 witness: pane 1 picked with no drag handler, released at (75, 50): no
event, state back to idle, status `Captured`. -/
theorem c10_witness :
    on_event widgetDraggingNoHandler .release demoLayout ⟨75, 50⟩ =
      (widgetDraggingNoHandler.state.idle, [], .captured) :=
  c10_release_without_drag_handler widgetDraggingNoHandler demoLayout ⟨75, 50⟩
    1 ⟨1, 1⟩ (by rfl) (by rfl)

end PaneGridSpec
